import Mathlib

/-!
Shallow embedding of the heads-up poker decision model of `holdem.py`
(class `PokerDecisionModel`).

Modelling conventions:
* Money amounts (pot, stacks, bet sizes, EVs) are rationals.
* The Python code stores actors and actions in the history and in the
  decision log as `.name` strings ("HERO", "FOLD", ...); the name map is
  injective, so they are modelled by the enumerations below.
* Operations that can raise a Python exception (`IndexError` on a short
  card token or empty history, `KeyError` on a missing stage factor)
  return `Option`, with `none` for the raised exception.
* The two sources of randomness used by a decision step
  (`random.random()` in `optimal_action` and the sampled villain
  response of `random.choices` in `execute_action`) are passed in as
  explicit oracles, indexed by the decision counter.
* `last_bet_amount` is only ever read in `optimal_action` immediately
  after `is_bet_in_front` has set it to `history[-1][2]`; it is
  therefore modelled by reading the last history entry directly.
-/

inductive PlayerType
  | TIGHT_PASSIVE
  | LOOSE_AGGRESSIVE
  | SCAREDY_CAT
  deriving DecidableEq, Repr

inductive GameStage
  | PREFLOP
  | FLOP
  | TURN
  | RIVER
  | SHOWDOWN
  | TERMINAL
  deriving DecidableEq, Repr

inductive ActionType
  | FOLD
  | CHECK
  | CALL
  | BET
  | RAISE
  | ALL_IN
  deriving DecidableEq, Repr

inductive Actor
  | HERO
  | VILLAIN
  deriving DecidableEq, Repr

structure HistEntry where
  actor : Actor
  act : ActionType
  amount : ℚ
  deriving DecidableEq, Repr

structure DecisionRecord where
  player : Actor
  stage : GameStage
  action : ActionType
  size : ℚ
  pot : ℚ
  stack : ℚ
  deriving DecidableEq, Repr

structure GameState where
  stage : GameStage
  pot : ℚ
  hero_stack : ℚ
  villain_stack : ℚ
  hole_cards : List (List Char)
  history : List HistEntry
  decision_tree : List DecisionRecord
  initial_stack : ℚ
  opponent_type : PlayerType
  deriving DecidableEq, Repr

structure HandResult where
  winner : String
  net_profit : ℚ
  total_ev : ℚ
  decision_count : ℕ
  avg_ev : ℚ
  deriving DecidableEq, Repr

open PlayerType GameStage ActionType Actor

/-- The rank list of `estimate_equity`. -/
def card_ranks : List Char := ['2','3','4','5','6','7','8','9','T','J','Q','K','A']

/-- Index of the first occurrence of a character in a list
(`list.index`, `None` instead of `ValueError`). -/
def rank_index (ch : Char) : List Char → Option ℕ
  | [] => none
  | c :: rest => if c = ch then some 0 else (rank_index ch rest).map (fun i => i + 1)

/-- One iteration of the rank-valuation loop of `estimate_equity`:
`card_ranks.index(card[0]) / 12.0` inside `try`, with `0.3` as default
when `card[0]` or the index lookup raises. -/
def rank_value (card : List Char) : ℚ :=
  match card.head? with
  | none => 3/10
  | some ch =>
    match rank_index ch card_ranks with
    | none => 3/10
    | some i => (i : ℚ) / 12

/-- The stage-decay dictionary of `estimate_equity`; `TERMINAL` is not a
key, so looking it up raises `KeyError` (modelled as `none`). -/
def stage_factor : GameStage → Option ℚ
  | PREFLOP => some (4/5)
  | FLOP => some (3/5)
  | TURN => some (2/5)
  | RIVER => some (1/5)
  | SHOWDOWN => some 1
  | TERMINAL => none

/-- The final clamp of `estimate_equity`:
`max(0.05, min(0.95, strength * stage_factor))`. -/
def clamp_equity (x : ℚ) : ℚ := max (1/20) (min (19/20) x)

/-- The clamp keeps every value inside [0.05, 0.95]. -/
lemma clamp_equity_bounds (x : ℚ) :
    1/20 ≤ clamp_equity x ∧ clamp_equity x ≤ 19/20 :=
  ⟨le_max_left _ _, max_le (by norm_num) (min_le_left _ _)⟩

/-- The generic part of `estimate_equity` (everything after the 7-2
pin): base strength, suited/connected bonus, stage decay, clamping.
Indexing a too-short card token (`card[1]`) raises, hence `Option`. -/
def equity_main (hole : List (List Char)) (stage : GameStage) : Option ℚ :=
  let values := hole.map rank_value
  let strength := values.sum / (values.length : ℚ)
  match hole[0]?, hole[1]? with
  | some c0, some c1 =>
    match c0[1]?, c1[1]? with
    | some s0, some s1 =>
      match values[0]?, values[1]? with
      | some v0, some v1 =>
        let strength2 :=
          if s0 = s1 ∧ |v0 - v1| ≤ 83/1000 then strength + 15/100
          else if s0 = s1 then strength + 7/100
          else if |v0 - v1| ≤ 83/1000 then strength + 8/100
          else strength
        match stage_factor stage with
        | none => none
        | some f => some (clamp_equity (strength2 * f))
      | _, _ => none
    | _, _ => none
  | _, _ => none

/-- `estimate_equity`: the 7-2 pin (`"7" in hole_cards[0] and
"2" in hole_cards[1]`, with Python short-circuit evaluation) followed by
the generic estimate. -/
def estimate_equity (hole : List (List Char)) (stage : GameStage) : Option ℚ :=
  match hole[0]? with
  | none => none
  | some c0 =>
    if '7' ∈ c0 then
      match hole[1]? with
      | none => none
      | some c1 =>
        if '2' ∈ c1 then some (1/20)
        else equity_main hole stage
    else equity_main hole stage

/-- `opponent_response`: per-archetype response distribution, with the
all-in override first, in the dict insertion order of the source. -/
def opponent_response (opp : PlayerType) (our_action : ActionType) :
    List (ActionType × ℚ) :=
  if our_action = ALL_IN then [(FOLD, 1)]
  else
    match opp with
    | TIGHT_PASSIVE =>
      if our_action = BET ∨ our_action = RAISE then
        [(FOLD, 65/100), (CALL, 30/100), (RAISE, 5/100)]
      else [(CHECK, 80/100), (BET, 20/100)]
    | LOOSE_AGGRESSIVE =>
      if our_action = BET ∨ our_action = RAISE then
        [(FOLD, 10/100), (CALL, 30/100), (RAISE, 60/100)]
      else [(CHECK, 5/100), (BET, 95/100)]
    | SCAREDY_CAT =>
      if our_action = BET ∨ our_action = RAISE then
        [(FOLD, 80/100), (CALL, 19/100), (RAISE, 1/100)]
      else [(CHECK, 90/100), (BET, 10/100)]

/-- One iteration of the EV accumulation loop of `calculate_ev`.
The `CALL`-on-`RIVER` branch invokes `estimate_equity`, which can
raise (hence `Option`); a response label matching none of the four
branches leaves the accumulator unchanged. -/
def ev_step (s : GameState) (bet : ℚ) (acc : ℚ) : ActionType × ℚ → Option ℚ
  | (FOLD, prob) => some (acc + prob * s.pot)
  | (CALL, prob) =>
    if s.stage = RIVER then
      match estimate_equity s.hole_cards s.stage with
      | none => none
      | some e => some (acc + prob * (e * (s.pot + 2 * bet) - (1 - e) * bet))
    else
      some (acc + prob * (-bet * (if s.opponent_type = LOOSE_AGGRESSIVE then 13/10 else 1)))
  | (RAISE, prob) =>
    some (acc + prob * (-bet * (if s.opponent_type = LOOSE_AGGRESSIVE then 3/2 else 1)))
  | (BET, prob) => some (acc + prob * 0)
  | (_, _) => some acc

/-- The EV accumulation loop of `calculate_ev` over the response
distribution. -/
def ev_sum (s : GameState) (bet : ℚ) : ℚ → List (ActionType × ℚ) → Option ℚ
  | acc, [] => some acc
  | acc, item :: rest =>
    match ev_step s bet acc item with
    | none => none
    | some acc2 => ev_sum s bet acc2 rest

/-- `calculate_ev`: 0 for `FOLD`, otherwise the probability-weighted
payoff sum over `opponent_response`. -/
def calculate_ev (s : GameState) (action : ActionType) (bet : ℚ) : Option ℚ :=
  if action = FOLD then some 0
  else ev_sum s bet 0 (opponent_response s.opponent_type action)

/-- `get_bluff_action`: preflop raise of 3.0 BB, post-flop bet sized by
archetype. -/
def get_bluff_action (s : GameState) : ActionType × ℚ :=
  if s.stage = PREFLOP then (RAISE, 3)
  else
    match s.opponent_type with
    | SCAREDY_CAT => (BET, s.pot * (4/10))
    | TIGHT_PASSIVE => (BET, s.pot * (6/10))
    | LOOSE_AGGRESSIVE => (BET, s.pot * (5/10))

/-- `is_bet_in_front`: the last history entry is a villain `BET` or
`RAISE` (the side effect on `last_bet_amount` is modelled by reading
the last entry's amount at the use site). -/
def is_bet_in_front (s : GameState) : Bool :=
  match s.history.getLast? with
  | none => false
  | some e => decide (e.actor = VILLAIN ∧ (e.act = BET ∨ e.act = RAISE))

/-- The action-and-size choice of `optimal_action` when the
bet-in-front flag is set: `last` is the last history entry (whose
amount `is_bet_in_front` stored in `last_bet_amount`) and `u` is the
`random.random()` draw. -/
def bet_response_choice (last : HistEntry) (hero_stack u : ℚ) : ActionType × ℚ :=
  let call_amt := min last.amount hero_stack
  let raise_amt := min (last.amount * 2) hero_stack
  if (last.act = CHECK ∨ last.act = CALL) ∧ 0 < raise_amt then (RAISE, raise_amt)
  else if u < 7/10 ∧ call_amt < raise_amt then (RAISE, raise_amt)
  else (CALL, call_amt)

/-- `optimal_action`: hero's decision and its EV.  `u` is the
`random.random()` draw used when facing a villain bet or raise. -/
def optimal_action (s : GameState) (u : ℚ) : Option ((ActionType × ℚ) × ℚ) :=
  if is_bet_in_front s then
    match s.history.getLast? with
    | none => none
    | some last =>
      let pair := bet_response_choice last s.hero_stack u
      match calculate_ev s pair.1 pair.2 with
      | none => none
      | some ev => some (pair, ev)
  else if s.stage = RIVER then
    let bs := min (s.pot * (1/2)) s.hero_stack
    match calculate_ev s BET bs with
    | none => none
    | some ev => some ((BET, bs), ev)
  else
    let pair := get_bluff_action s
    let bs := min pair.2 s.hero_stack
    if 0 < bs ∧ 0 < s.hero_stack then
      match calculate_ev s pair.1 bs with
      | none => none
      | some ev => some ((pair.1, bs), ev)
    else
      match calculate_ev s CHECK 0 with
      | none => none
      | some ev => some ((CHECK, 0), ev)

/-- Hero's pot contribution in `execute_action`: `min(bet, hero_stack)`
for `CALL` and for `BET`/`RAISE`/`ALL_IN`, nothing otherwise. -/
def hero_contribution (s : GameState) (action : ActionType) (bet : ℚ) : ℚ :=
  if action = CALL then min bet s.hero_stack
  else if action = BET ∨ action = RAISE ∨ action = ALL_IN then min bet s.hero_stack
  else 0

/-- The villain response amount of `execute_action`, computed against
the pot as it stands after hero's contribution (`pot2`). -/
def villain_response_amount (pot2 vstack bet : ℚ) (resp : ActionType) : ℚ :=
  if resp = CALL then min bet vstack
  else if resp = RAISE then min (bet * 2) vstack
  else if resp = BET then min (pot2 * (1/2)) vstack
  else 0

/-- Villain's pot contribution in `execute_action`: the response amount
for `CALL`/`RAISE`/`BET`, nothing otherwise. -/
def villain_contribution (pot2 vstack bet : ℚ) (resp : ActionType) : ℚ :=
  if resp = CALL ∨ resp = RAISE ∨ resp = BET then
    villain_response_amount pot2 vstack bet resp
  else 0

/-- `execute_action`: record hero's entry (log fields taken before his
stack/pot update), apply hero's contribution, record the villain
response `resp` (log fields taken before the villain update), apply
villain's contribution. -/
def execute_action (s : GameState) (action : ActionType) (bet : ℚ)
    (resp : ActionType) : GameState :=
  let hc := hero_contribution s action bet
  let pot2 := s.pot + hc
  let resp_amount := villain_response_amount pot2 s.villain_stack bet resp
  let vc := villain_contribution pot2 s.villain_stack bet resp
  { s with
    history := s.history ++ [⟨HERO, action, bet⟩, ⟨VILLAIN, resp, resp_amount⟩],
    decision_tree := s.decision_tree ++
      [⟨HERO, s.stage, action, bet, s.pot, s.hero_stack⟩,
       ⟨VILLAIN, s.stage, resp, resp_amount, pot2, s.villain_stack⟩],
    pot := pot2 + vc,
    hero_stack := s.hero_stack - hc,
    villain_stack := s.villain_stack - vc }

/-- The stage ladder of `update_stage`'s two advancing branches; the
`if`/`elif` chains assign nothing for `SHOWDOWN`/`TERMINAL`. -/
def advance_stage : GameStage → GameStage
  | PREFLOP => FLOP
  | FLOP => TURN
  | TURN => RIVER
  | RIVER => SHOWDOWN
  | SHOWDOWN => SHOWDOWN
  | TERMINAL => TERMINAL

/-- `update_stage`: early return on a short history; a fold in the last
two entries returns `TERMINAL` at once (skipping the stack check);
otherwise both-check or an unanswered last `CALL` advances one stage,
and an exhausted stack then forces `SHOWDOWN`. -/
def update_stage (s : GameState) : GameState :=
  match s.history.reverse with
  | e1 :: e2 :: _ =>
    if e1.act = FOLD ∨ e2.act = FOLD then { s with stage := TERMINAL }
    else
      let s2 :=
        if e2.act = CHECK ∧ e1.act = CHECK then { s with stage := advance_stage s.stage }
        else if e1.act = CALL ∧ is_bet_in_front s = false then
          { s with stage := advance_stage s.stage }
        else s
      if s2.hero_stack = 0 ∨ s2.villain_stack = 0 then { s2 with stage := SHOWDOWN }
      else s2
  | _ => s

/-- The hand-resolution tail of `simulate_hand`: pot award on
`TERMINAL` from the last history entry (raising on an empty history),
Bernoulli showdown via `estimate_equity` otherwise (`draw` is the
`random.random()` outcome), and the returned statistics tuple. -/
def resolve (s : GameState) (total_ev : ℚ) (cnt : ℕ) (draw : ℚ) :
    Option (HandResult × GameState) :=
  let avg : ℚ := if 0 < cnt then total_ev / (cnt : ℚ) else 0
  if s.stage = TERMINAL then
    match s.history.getLast? with
    | none => none
    | some la =>
      if la.actor = VILLAIN ∧ la.act = FOLD then
        let s2 := { s with hero_stack := s.hero_stack + s.pot }
        some (⟨"Hero", s2.hero_stack - s2.initial_stack, total_ev, cnt, avg⟩, s2)
      else
        let s2 := { s with villain_stack := s.villain_stack + s.pot }
        some (⟨"Villain", s2.hero_stack - s2.initial_stack, total_ev, cnt, avg⟩, s2)
  else
    match estimate_equity s.hole_cards s.stage with
    | none => none
    | some e =>
      if draw < e then
        let s2 := { s with hero_stack := s.hero_stack + s.pot }
        some (⟨"Hero", s2.hero_stack - s2.initial_stack, total_ev, cnt, avg⟩, s2)
      else
        let s2 := { s with villain_stack := s.villain_stack + s.pot }
        some (⟨"Villain", s2.hero_stack - s2.initial_stack, total_ev, cnt, avg⟩, s2)

/-- The decision loop of `simulate_hand`.  `uO`/`rO` are the oracles
for hero's `random.random()` draw and the sampled villain response of
each iteration, indexed by the decision counter.  A failing decision
step (`optimal_action` raising) breaks out of the loop, leaving the
statistics accumulated so far; fuel bounds the iteration count. -/
def sim_loop (uO : ℕ → ℚ) (rO : ℕ → ActionType) :
    ℕ → GameState → ℚ → ℕ → GameState × ℚ × ℕ
  | 0, s, tev, cnt => (s, tev, cnt)
  | fuel + 1, s, tev, cnt =>
    if s.stage = TERMINAL ∨ s.stage = SHOWDOWN then (s, tev, cnt)
    else
      match optimal_action s (uO cnt) with
      | none => (s, tev, cnt)
      | some ((a, bs), ev) =>
        let s2 := update_stage (execute_action s a bs (rO cnt))
        if rO cnt = FOLD then ({ s2 with stage := TERMINAL }, tev + ev, cnt + 1)
        else if s2.hero_stack = 0 ∨ s2.villain_stack = 0 then
          ({ s2 with stage := SHOWDOWN }, tev + ev, cnt + 1)
        else sim_loop uO rO fuel s2 (tev + ev) (cnt + 1)

/-- `simulate_hand`: run the decision loop, then resolve the hand. -/
def simulate_hand (fuel : ℕ) (uO : ℕ → ℚ) (rO : ℕ → ActionType) (draw : ℚ)
    (s : GameState) : Option (HandResult × GameState) :=
  match sim_loop uO rO fuel s 0 0 with
  | (s2, tev, cnt) => resolve s2 tev cnt draw

/-- A `GameState` as `start_hand` leaves it: empty decision log, the
initial stack snapshotted at the hand start. -/
def mk_state (opp : PlayerType) (stage : GameStage) (pot hstack vstack : ℚ)
    (hole : List (List Char)) (hist : List HistEntry) : GameState :=
  { stage := stage, pot := pot, hero_stack := hstack, villain_stack := vstack,
    hole_cards := hole, history := hist, decision_tree := [],
    initial_stack := hstack, opponent_type := opp }

/-- Last element of a list whose reversal starts with `e`. -/
lemma getLast?_of_reverse_cons {l t : List HistEntry} {e : HistEntry}
    (h : l.reverse = e :: t) : l.getLast? = some e := by
  have h2 : l = t.reverse ++ [e] := by
    have h3 := congrArg List.reverse h
    simpa using h3
  rw [h2]
  simp

/-- The state of Scenario A: SCAREDY_CAT opponent, preflop, pot 1.5,
hero holds 7 of diamonds and 2 of clubs, empty history. -/
def c1_state : GameState :=
  mk_state SCAREDY_CAT PREFLOP (3/2) 100 100 [['7','♦'], ['2','♣']] []

/-- Claim C1: against a SCAREDY_CAT opponent at PREFLOP with pot 1.5,
hero stack at least 3, hole cards 7d 2c and no bet in front,
`optimal_action` returns RAISE of size 3 and `calculate_ev` for
(RAISE, 3) is exactly 0.60. -/
theorem c1_scenario_a (s : GameState) (u : ℚ)
    (hopp : s.opponent_type = SCAREDY_CAT) (hst : s.stage = PREFLOP)
    (hpot : s.pot = 3/2) (hstack : 3 ≤ s.hero_stack)
    (hcards : s.hole_cards = [['7','♦'], ['2','♣']])
    (hbet : is_bet_in_front s = false) :
    optimal_action s u = some ((RAISE, 3), 3/5) ∧
      calculate_ev s RAISE 3 = some (3/5) := by
  have hev : calculate_ev s RAISE 3 = some (3/5) := by
    simp [calculate_ev, ev_sum, ev_step, opponent_response, hopp, hst, hpot]
    norm_num
  have hmin : min (3:ℚ) s.hero_stack = 3 := min_eq_left hstack
  have hpos : (0:ℚ) < s.hero_stack := lt_of_lt_of_le (by norm_num) hstack
  refine ⟨?_, hev⟩
  simp [optimal_action, hbet, hst, get_bluff_action, hmin, hev, hpos]

/-- Witness for C1 at the concrete Scenario-A state. -/
theorem c1_scenario_a_witness :
    optimal_action c1_state 0 = some ((RAISE, 3), 3/5) ∧
      calculate_ev c1_state RAISE 3 = some (3/5) :=
  c1_scenario_a c1_state 0 rfl rfl rfl (by norm_num [c1_state, mk_state]) rfl rfl

/-- Claim C4 counterexample: with the two cards in the order 2c 7d the
7-2 pin does not fire and the equity is 1/6, not 0.05. -/
theorem c4_counterexample :
    estimate_equity [['2','♣'], ['7','♦']] PREFLOP = some (1/6) ∧
      (1/6 : ℚ) ≠ 1/20 := by
  constructor
  · simp [estimate_equity, equity_main, rank_value, rank_index, card_ranks,
      stage_factor, clamp_equity]
    norm_num [abs_of_nonneg]
  · norm_num

/-- Claim C4 (amended): the 0.05 pin fires exactly in the recorded
order — first hole-card token containing "7" and second containing
"2" — for every suit, connectivity and stage; the reversed order is
not pinned. -/
theorem c4_pin_order (c0 c1 : List Char) (st : GameStage)
    (h7 : '7' ∈ c0) (h2 : '2' ∈ c1) :
    estimate_equity [c0, c1] st = some (1/20) := by
  simp [estimate_equity, h7, h2]

/-- Witness for C4 at a concrete suited pair and stage. -/
theorem c4_pin_order_witness :
    estimate_equity [['7','♠'], ['2','♥']] TURN = some (1/20) :=
  c4_pin_order ['7','♠'] ['2','♥'] TURN (by simp) (by simp)

/-- Claim C3 counterexample: a one-character card token makes
`estimate_equity` raise (suit indexing is outside the `try`), and the
`TERMINAL` stage makes the factor lookup raise, for any cards — in
both cases no value in [0.05, 0.95] is returned. -/
theorem c3_counterexample :
    estimate_equity [['A'], ['K','♣']] PREFLOP = none ∧
      estimate_equity [['A','♠'], ['K','♣']] TERMINAL = none := by
  constructor
  · simp [estimate_equity, equity_main]
  · simp [estimate_equity, equity_main, stage_factor]

/-- Bounds for the generic equity estimate when both tokens have at
least two characters and the stage has a decay factor. -/
lemma equity_main_bounds (c0 c1 : List Char) (st : GameStage) (f : ℚ)
    (h0 : 2 ≤ c0.length) (h1 : 2 ≤ c1.length) (hf : stage_factor st = some f) :
    (equity_main [c0, c1] st).isSome = true ∧
      ∀ q, equity_main [c0, c1] st = some q → 1/20 ≤ q ∧ q ≤ 19/20 := by
  obtain ⟨x0, e0⟩ : ∃ x, c0[1]? = some x :=
    ⟨_, List.getElem?_eq_getElem (by omega)⟩
  obtain ⟨x1, e1⟩ : ∃ x, c1[1]? = some x :=
    ⟨_, List.getElem?_eq_getElem (by omega)⟩
  constructor
  · simp [equity_main, e0, e1, hf]
  · intro q hq
    simp [equity_main, e0, e1, hf] at hq
    split_ifs at hq <;> (subst hq; exact clamp_equity_bounds _)

/-- Claim C3 (amended): for every pair of hole-card tokens of at least
two characters (the rank component still defaulting to 0.3 when
malformed) and every stage other than TERMINAL, `estimate_equity`
returns a value, and the value lies in [0.05, 0.95]. -/
theorem c3_equity_bounds (c0 c1 : List Char) (st : GameStage)
    (h0 : 2 ≤ c0.length) (h1 : 2 ≤ c1.length) (hst : st ≠ TERMINAL) :
    (estimate_equity [c0, c1] st).isSome = true ∧
      ∀ q, estimate_equity [c0, c1] st = some q → 1/20 ≤ q ∧ q ≤ 19/20 := by
  obtain ⟨f, hf⟩ : ∃ f, stage_factor st = some f := by
    cases st
    case TERMINAL => exact absurd rfl hst
    all_goals exact ⟨_, rfl⟩
  have hmain := equity_main_bounds c0 c1 st f h0 h1 hf
  by_cases h7 : '7' ∈ c0
  · by_cases h2 : '2' ∈ c1
    · constructor
      · simp [estimate_equity, h7, h2]
      · intro q hq
        simp [estimate_equity, h7, h2] at hq
        rw [hq.symm]
        norm_num
    · constructor
      · simpa [estimate_equity, h7, h2] using hmain.1
      · intro q hq
        rw [show estimate_equity [c0, c1] st = equity_main [c0, c1] st by
          simp [estimate_equity, h7, h2]] at hq
        exact hmain.2 q hq
  · constructor
    · simpa [estimate_equity, h7] using hmain.1
    · intro q hq
      rw [show estimate_equity [c0, c1] st = equity_main [c0, c1] st by
        simp [estimate_equity, h7]] at hq
      exact hmain.2 q hq

/-- Witness for C3 at a concrete offsuit hand on the flop. -/
theorem c3_equity_bounds_witness :
    (estimate_equity [['Q','♠'], ['J','♣']] FLOP).isSome = true ∧
      (1/20 ≤ (19/40 : ℚ) ∧ (19/40 : ℚ) ≤ 19/20) :=
  ⟨(c3_equity_bounds ['Q','♠'] ['J','♣'] FLOP (by norm_num) (by norm_num)
      (by simp)).1,
    (c3_equity_bounds ['Q','♠'] ['J','♣'] FLOP (by norm_num) (by norm_num)
      (by simp)).2 (19/40)
      (by simp [estimate_equity, equity_main, rank_value, rank_index, card_ranks,
            stage_factor, clamp_equity]
          norm_num [abs_of_nonneg])⟩

/-- A state whose history ends with hero BET answered by villain CALL,
both stacks nonzero. -/
def c5_state : GameState :=
  mk_state TIGHT_PASSIVE PREFLOP (3/2) 10 10 []
    [⟨HERO, BET, 2⟩, ⟨VILLAIN, CALL, 2⟩]

/-- Claim C5 counterexample: the hero's last entry is BET, not CALL,
no fold occurred and the entries are not both CHECK, yet `update_stage`
advances PREFLOP to FLOP — the advance is decided by the villain's
trailing CALL entry, not by the hero's. -/
theorem c5_counterexample :
    c5_state.history = [⟨HERO, BET, 2⟩, ⟨VILLAIN, CALL, 2⟩] ∧
      (update_stage c5_state).stage = FLOP := by
  constructor
  · rfl
  · simp [update_stage, c5_state, mk_state, advance_stage, is_bet_in_front]

/-- Claim C5 (amended): with no fold among the last two history
entries, the two entries not both CHECK, and both stacks nonzero, the
stage advances one step exactly when the LAST history entry — in
normal operation the villain's, regardless of actor — has action CALL
(the no-bet-outstanding conjunct is then automatically true). -/
theorem c5_advance_on_last_call (s : GameState) (e1 e2 : HistEntry)
    (rest : List HistEntry) (hrev : s.history.reverse = e1 :: e2 :: rest)
    (h1 : e1.act ≠ FOLD) (h2 : e2.act ≠ FOLD)
    (hcc : ¬(e2.act = CHECK ∧ e1.act = CHECK))
    (hh : s.hero_stack ≠ 0) (hv : s.villain_stack ≠ 0) :
    (update_stage s).stage =
      (if e1.act = CALL then advance_stage s.stage else s.stage) := by
  have hlast : s.history.getLast? = some e1 := getLast?_of_reverse_cons hrev
  by_cases hc : e1.act = CALL
  · have hbf : is_bet_in_front s = false := by
      simp [is_bet_in_front, hlast, hc]
    simp only [update_stage]
    rw [hrev]
    simp [h1, h2, hcc, hc, hbf, hh, hv]
  · simp only [update_stage]
    rw [hrev]
    simp [h1, h2, hcc, hc, hh, hv]

/-- Witness for C5: villain's CALL as last entry advances FLOP to
TURN. -/
theorem c5_advance_on_last_call_witness :
    (update_stage (mk_state SCAREDY_CAT FLOP 4 10 10 []
        [⟨HERO, BET, 2⟩, ⟨VILLAIN, CALL, 2⟩])).stage =
      (if (⟨VILLAIN, CALL, 2⟩ : HistEntry).act = CALL then
        advance_stage (mk_state SCAREDY_CAT FLOP 4 10 10 []
          [⟨HERO, BET, 2⟩, ⟨VILLAIN, CALL, 2⟩]).stage
      else (mk_state SCAREDY_CAT FLOP 4 10 10 []
          [⟨HERO, BET, 2⟩, ⟨VILLAIN, CALL, 2⟩]).stage) :=
  c5_advance_on_last_call _ ⟨VILLAIN, CALL, 2⟩ ⟨HERO, BET, 2⟩ [] rfl
    (by simp) (by simp) (by simp) (by norm_num [mk_state]) (by norm_num [mk_state])

/-- A state with an exhausted hero stack whose history ends in a
villain FOLD. -/
def c6_state : GameState :=
  mk_state TIGHT_PASSIVE FLOP (3/2) 0 10 []
    [⟨HERO, BET, 5⟩, ⟨VILLAIN, FOLD, 0⟩]

/-- Claim C6 counterexample: with hero stack exactly 0 but a FOLD among
the last two history entries, `update_stage` returns TERMINAL, not
SHOWDOWN — the fold rule returns early and is NOT overridden by the
stack-exhaustion rule. -/
theorem c6_counterexample :
    c6_state.hero_stack = 0 ∧ (update_stage c6_state).stage = TERMINAL ∧
      TERMINAL ≠ SHOWDOWN := by
  refine ⟨rfl, ?_, by simp⟩
  simp [update_stage, c6_state, mk_state]

/-- Claim C6 (amended): when either stack is exactly 0, the history has
at least two entries and neither of the last two entries is a FOLD,
`update_stage` forces SHOWDOWN, overriding the two stage-advance
rules; a FOLD in the last two entries instead returns TERMINAL early,
and with fewer than two entries the stage is left unchanged. -/
theorem c6_stack_zero_showdown (s : GameState) (e1 e2 : HistEntry)
    (rest : List HistEntry) (hrev : s.history.reverse = e1 :: e2 :: rest)
    (h1 : e1.act ≠ FOLD) (h2 : e2.act ≠ FOLD)
    (hz : s.hero_stack = 0 ∨ s.villain_stack = 0) :
    (update_stage s).stage = SHOWDOWN := by
  simp only [update_stage]
  rw [hrev]
  simp only [h1, h2]
  rw [if_neg (by simp [h1, h2])]
  split_ifs <;> simp_all

/-- Witness for C6: villain stack 0, last two entries BET then CALL,
stage forced from TURN to SHOWDOWN. -/
theorem c6_stack_zero_showdown_witness :
    (update_stage (mk_state LOOSE_AGGRESSIVE TURN 20 10 0 []
        [⟨HERO, BET, 5⟩, ⟨VILLAIN, CALL, 5⟩])).stage = SHOWDOWN :=
  c6_stack_zero_showdown _ ⟨VILLAIN, CALL, 5⟩ ⟨HERO, BET, 5⟩ [] rfl
    (by simp) (by simp) (Or.inr rfl)

/-- Claim C7 counterexample: no state can have the bet-in-front flag
set while the recorded villain action of the last history entry is
CHECK or CALL — the re-raise branch guarded by that combination never
fires. -/
theorem c7_counterexample :
    ¬ ∃ (s : GameState) (e : HistEntry), is_bet_in_front s = true ∧
        s.history.getLast? = some e ∧ (e.act = CHECK ∨ e.act = CALL) := by
  rintro ⟨s, e, hb, hl, hc⟩
  rw [is_bet_in_front, hl] at hb
  have hba := of_decide_eq_true hb
  rcases hba with ⟨_, hba | hba⟩ <;> rcases hc with hc | hc <;>
    rw [hba] at hc <;> exact ActionType.noConfusion hc

/-- Claim C7 (amended): the CHECK/CALL re-raise branch of
`optimal_action` is dead code — whenever `is_bet_in_front` is true,
the recorded villain action of the last history entry is BET or RAISE,
so its guard `villain_act in [CHECK, CALL] and raise_amt > 0` is never
satisfied. -/
theorem c7_dead_branch (s : GameState) (e : HistEntry)
    (hb : is_bet_in_front s = true) (hl : s.history.getLast? = some e) :
    (e.act = BET ∨ e.act = RAISE) ∧
      ¬((e.act = CHECK ∨ e.act = CALL) ∧
        0 < min (e.amount * 2) s.hero_stack) := by
  rw [is_bet_in_front, hl] at hb
  have hba := of_decide_eq_true hb
  refine ⟨hba.2, ?_⟩
  rintro ⟨hc | hc, -⟩ <;> rcases hba.2 with hba2 | hba2 <;>
    rw [hba2] at hc <;> exact ActionType.noConfusion hc

/-- Witness for C7 at a state whose last entry is a villain RAISE. -/
theorem c7_dead_branch_witness :
    ((⟨VILLAIN, RAISE, 4⟩ : HistEntry).act = BET ∨
        (⟨VILLAIN, RAISE, 4⟩ : HistEntry).act = RAISE) ∧
      ¬(((⟨VILLAIN, RAISE, 4⟩ : HistEntry).act = CHECK ∨
          (⟨VILLAIN, RAISE, 4⟩ : HistEntry).act = CALL) ∧
        0 < min ((⟨VILLAIN, RAISE, 4⟩ : HistEntry).amount * 2)
          (mk_state TIGHT_PASSIVE FLOP 4 10 10 []
            [⟨HERO, BET, 2⟩, ⟨VILLAIN, RAISE, 4⟩]).hero_stack) :=
  c7_dead_branch
    (mk_state TIGHT_PASSIVE FLOP 4 10 10 [] [⟨HERO, BET, 2⟩, ⟨VILLAIN, RAISE, 4⟩])
    ⟨VILLAIN, RAISE, 4⟩ rfl rfl

/-- Clamping facts about `min x c` for rationals. -/
lemma min_clamp_facts (x c : ℚ) (hx : 0 ≤ x) (hc : 0 ≤ c) :
    0 ≤ min x c ∧ min x c ≤ c ∧ 0 ≤ c - min x c ∧
      (c < x → min x c = c ∧ c - min x c = 0) :=
  ⟨le_min hx hc, min_le_right _ _, sub_nonneg.mpr (min_le_right _ _),
    fun h => ⟨min_eq_right h.le, by rw [min_eq_right h.le, sub_self]⟩⟩

/-- For the four contributing hero actions the contribution is
`min(bet, hero_stack)`. -/
lemma hero_contribution_eq (s : GameState) (a : ActionType) (b : ℚ)
    (ha : a = CALL ∨ a = BET ∨ a = RAISE ∨ a = ALL_IN) :
    hero_contribution s a b = min b s.hero_stack := by
  rcases ha with h | h | h | h <;> simp [hero_contribution, h]

/-- Claim C2: for non-negative pot, stacks and bet size, one step of
`execute_action` with a hero action in {CALL, BET, RAISE, ALL_IN}
yields `pot_after = pot_before + hero_contribution +
villain_contribution`; both contributions are ≥ 0 and bounded by the
contributor's pre-action stack, both resulting stacks are ≥ 0, and a
contribution that would exceed the available stack is clamped to
exactly that stack, leaving that stack exactly 0. -/
theorem c2_pot_and_clamping (s : GameState) (a r : ActionType) (b : ℚ)
    (hp : 0 ≤ s.pot) (hh : 0 ≤ s.hero_stack) (hv : 0 ≤ s.villain_stack)
    (hb : 0 ≤ b) (ha : a = CALL ∨ a = BET ∨ a = RAISE ∨ a = ALL_IN) :
    (execute_action s a b r).pot =
        s.pot + hero_contribution s a b +
          villain_contribution (s.pot + hero_contribution s a b) s.villain_stack b r ∧
      (0 ≤ hero_contribution s a b ∧ hero_contribution s a b ≤ s.hero_stack) ∧
      (0 ≤ villain_contribution (s.pot + hero_contribution s a b) s.villain_stack b r ∧
        villain_contribution (s.pot + hero_contribution s a b) s.villain_stack b r ≤
          s.villain_stack) ∧
      0 ≤ (execute_action s a b r).hero_stack ∧
      0 ≤ (execute_action s a b r).villain_stack ∧
      (s.hero_stack < b →
        hero_contribution s a b = s.hero_stack ∧
          (execute_action s a b r).hero_stack = 0) ∧
      (r = CALL → s.villain_stack < b →
        villain_contribution (s.pot + hero_contribution s a b) s.villain_stack b r =
            s.villain_stack ∧ (execute_action s a b r).villain_stack = 0) ∧
      (r = RAISE → s.villain_stack < b * 2 →
        villain_contribution (s.pot + hero_contribution s a b) s.villain_stack b r =
            s.villain_stack ∧ (execute_action s a b r).villain_stack = 0) ∧
      (r = BET →
        s.villain_stack < (s.pot + hero_contribution s a b) * (1/2) →
        villain_contribution (s.pot + hero_contribution s a b) s.villain_stack b r =
            s.villain_stack ∧ (execute_action s a b r).villain_stack = 0) := by
  have hceq := hero_contribution_eq s a b ha
  have hcf := min_clamp_facts b s.hero_stack hb hh
  have hpot2 : 0 ≤ s.pot + hero_contribution s a b := by
    rw [hceq]; exact add_nonneg hp hcf.1
  have hexec_pot : (execute_action s a b r).pot =
      s.pot + hero_contribution s a b +
        villain_contribution (s.pot + hero_contribution s a b) s.villain_stack b r := rfl
  have hexec_hs : (execute_action s a b r).hero_stack =
      s.hero_stack - hero_contribution s a b := rfl
  have hexec_vs : (execute_action s a b r).villain_stack =
      s.villain_stack -
        villain_contribution (s.pot + hero_contribution s a b) s.villain_stack b r := rfl
  have hvfacts :
      0 ≤ villain_contribution (s.pot + hero_contribution s a b) s.villain_stack b r ∧
        villain_contribution (s.pot + hero_contribution s a b) s.villain_stack b r ≤
          s.villain_stack := by
    cases r
    case CALL =>
      have hvc : villain_contribution (s.pot + hero_contribution s a b)
          s.villain_stack b CALL = min b s.villain_stack := by
        simp [villain_contribution, villain_response_amount]
      rw [hvc]
      exact ⟨le_min hb hv, min_le_right _ _⟩
    case RAISE =>
      have hvc : villain_contribution (s.pot + hero_contribution s a b)
          s.villain_stack b RAISE = min (b * 2) s.villain_stack := by
        simp [villain_contribution, villain_response_amount]
      rw [hvc]
      exact ⟨le_min (mul_nonneg hb (by norm_num)) hv, min_le_right _ _⟩
    case BET =>
      have hvc : villain_contribution (s.pot + hero_contribution s a b)
          s.villain_stack b BET =
          min ((s.pot + hero_contribution s a b) * (1/2)) s.villain_stack := by
        simp [villain_contribution, villain_response_amount]
      rw [hvc]
      exact ⟨le_min (mul_nonneg hpot2 (by norm_num)) hv, min_le_right _ _⟩
    case FOLD =>
      have hvc : villain_contribution (s.pot + hero_contribution s a b)
          s.villain_stack b FOLD = 0 := by
        simp [villain_contribution, villain_response_amount]
      rw [hvc]
      exact ⟨le_refl 0, hv⟩
    case CHECK =>
      have hvc : villain_contribution (s.pot + hero_contribution s a b)
          s.villain_stack b CHECK = 0 := by
        simp [villain_contribution, villain_response_amount]
      rw [hvc]
      exact ⟨le_refl 0, hv⟩
    case ALL_IN =>
      have hvc : villain_contribution (s.pot + hero_contribution s a b)
          s.villain_stack b ALL_IN = 0 := by
        simp [villain_contribution, villain_response_amount]
      rw [hvc]
      exact ⟨le_refl 0, hv⟩
  have hcnn : 0 ≤ hero_contribution s a b := by rw [hceq]; exact hcf.1
  have hcle : hero_contribution s a b ≤ s.hero_stack := by rw [hceq]; exact hcf.2.1
  refine ⟨hexec_pot, ⟨hcnn, hcle⟩, hvfacts, ?_, ?_, ?_, ?_, ?_, ?_⟩
  · rw [hexec_hs, hceq]; exact hcf.2.2.1
  · rw [hexec_vs]; exact sub_nonneg.mpr hvfacts.2
  · intro hlt
    have h3 := hcf.2.2.2 hlt
    constructor
    · rw [hceq]; exact h3.1
    · rw [hexec_hs, hceq, h3.1, sub_self]
  · intro hr hlt
    subst hr
    have hm := (min_clamp_facts b s.villain_stack hb hv).2.2.2 hlt
    have hvc0 : villain_contribution (s.pot + hero_contribution s a b)
        s.villain_stack b CALL = min b s.villain_stack := by
      simp [villain_contribution, villain_response_amount]
    exact ⟨hvc0.trans hm.1, by rw [hexec_vs, hvc0, hm.1, sub_self]⟩
  · intro hr hlt
    subst hr
    have hm := (min_clamp_facts (b * 2) s.villain_stack
      (mul_nonneg hb (by norm_num)) hv).2.2.2 hlt
    have hvc0 : villain_contribution (s.pot + hero_contribution s a b)
        s.villain_stack b RAISE = min (b * 2) s.villain_stack := by
      simp [villain_contribution, villain_response_amount]
    exact ⟨hvc0.trans hm.1, by rw [hexec_vs, hvc0, hm.1, sub_self]⟩
  · intro hr hlt
    subst hr
    have hm := (min_clamp_facts ((s.pot + hero_contribution s a b) * (1/2))
      s.villain_stack (mul_nonneg hpot2 (by norm_num)) hv).2.2.2 hlt
    have hvc0 : villain_contribution (s.pot + hero_contribution s a b)
        s.villain_stack b BET =
        min ((s.pot + hero_contribution s a b) * (1/2)) s.villain_stack := by
      simp [villain_contribution, villain_response_amount]
    exact ⟨hvc0.trans hm.1, by rw [hexec_vs, hvc0, hm.1, sub_self]⟩

/-- A plain preflop state used to witness the C2 invariant. -/
def c2_state : GameState := mk_state TIGHT_PASSIVE PREFLOP (3/2) 100 100 [] []

/-- Witness for C2: hero BET 5 answered by villain CALL from stacks of
100. -/
theorem c2_pot_and_clamping_witness :
    (execute_action c2_state BET 5 CALL).pot =
        c2_state.pot + hero_contribution c2_state BET 5 +
          villain_contribution (c2_state.pot + hero_contribution c2_state BET 5)
            c2_state.villain_stack 5 CALL ∧
      (0 ≤ hero_contribution c2_state BET 5 ∧
        hero_contribution c2_state BET 5 ≤ c2_state.hero_stack) ∧
      (0 ≤ villain_contribution (c2_state.pot + hero_contribution c2_state BET 5)
          c2_state.villain_stack 5 CALL ∧
        villain_contribution (c2_state.pot + hero_contribution c2_state BET 5)
            c2_state.villain_stack 5 CALL ≤ c2_state.villain_stack) ∧
      0 ≤ (execute_action c2_state BET 5 CALL).hero_stack ∧
      0 ≤ (execute_action c2_state BET 5 CALL).villain_stack ∧
      (c2_state.hero_stack < 5 →
        hero_contribution c2_state BET 5 = c2_state.hero_stack ∧
          (execute_action c2_state BET 5 CALL).hero_stack = 0) ∧
      (CALL = CALL → c2_state.villain_stack < 5 →
        villain_contribution (c2_state.pot + hero_contribution c2_state BET 5)
            c2_state.villain_stack 5 CALL = c2_state.villain_stack ∧
          (execute_action c2_state BET 5 CALL).villain_stack = 0) ∧
      (CALL = RAISE → c2_state.villain_stack < 5 * 2 →
        villain_contribution (c2_state.pot + hero_contribution c2_state BET 5)
            c2_state.villain_stack 5 CALL = c2_state.villain_stack ∧
          (execute_action c2_state BET 5 CALL).villain_stack = 0) ∧
      (CALL = BET →
        c2_state.villain_stack <
          (c2_state.pot + hero_contribution c2_state BET 5) * (1/2) →
        villain_contribution (c2_state.pot + hero_contribution c2_state BET 5)
            c2_state.villain_stack 5 CALL = c2_state.villain_stack ∧
          (execute_action c2_state BET 5 CALL).villain_stack = 0) :=
  c2_pot_and_clamping c2_state BET CALL 5 (by norm_num [c2_state, mk_state])
    (by norm_num [c2_state, mk_state]) (by norm_num [c2_state, mk_state])
    (by norm_num) (Or.inr (Or.inl rfl))

/-- A plain preflop state used for the C9 counterexample. -/
def c9_state : GameState := mk_state TIGHT_PASSIVE PREFLOP (3/2) 100 100 [] []

/-- Claim C9 counterexample: after hero BET 5 answered by villain CALL
from pot 1.5 and stacks 100, the HERO log record carries pot 1.5 and
stack 100 — the values BEFORE his contribution (pot-after would be 6.5
and stack-after 95) — and likewise the VILLAIN record carries the
villain's pre-contribution values 6.5 and 100. -/
theorem c9_counterexample :
    (execute_action c9_state BET 5 CALL).decision_tree =
        [⟨HERO, PREFLOP, BET, 5, 3/2, 100⟩, ⟨VILLAIN, PREFLOP, CALL, 5, 13/2, 100⟩] ∧
      (execute_action c9_state BET 5 CALL).pot = 23/2 ∧
      ((3/2 : ℚ) ≠ 3/2 + 5 ∧ (100 : ℚ) ≠ 100 - 5) := by
  refine ⟨?_, ?_, by norm_num, by norm_num⟩
  · simp [execute_action, c9_state, mk_state, hero_contribution,
      villain_response_amount, villain_contribution]
    norm_num
  · simp [execute_action, c9_state, mk_state, hero_contribution,
      villain_response_amount, villain_contribution]
    norm_num

/-- Claim C9 (amended): each step appends exactly two records to the
decision log; both carry the pot and the acting player's stack as they
stand BEFORE that player's contribution is applied (the villain's
record already includes the hero's contribution in its pot). -/
theorem c9_log_records_pre (s : GameState) (a r : ActionType) (b : ℚ) :
    (execute_action s a b r).decision_tree = s.decision_tree ++
      [⟨HERO, s.stage, a, b, s.pot, s.hero_stack⟩,
       ⟨VILLAIN, s.stage, r,
         villain_response_amount (s.pot + hero_contribution s a b)
           s.villain_stack b r,
         s.pot + hero_contribution s a b, s.villain_stack⟩] := rfl

/-- A hand started on the river with malformed (one-character) hole
card tokens: the only decision step fails inside `calculate_ev`. -/
def c8_state : GameState := mk_state SCAREDY_CAT RIVER 16 100 100 [['A'], ['K']] []

/-- Claim C8 counterexample: the decision step at `c8_state` raises
(`optimal_action` is `none`), and `simulate_hand` does NOT return a
statistics tuple — the resolution code outside the `try` re-invokes
`estimate_equity` on the same state and the exception propagates
(`none`). -/
theorem c8_counterexample :
    optimal_action c8_state 0 = none ∧
      simulate_hand 3 (fun n => 0) (fun n => FOLD) 0 c8_state = none := by
  have hoa : optimal_action c8_state 0 = none := by
    simp [optimal_action, is_bet_in_front, c8_state, mk_state, calculate_ev,
      ev_sum, ev_step, opponent_response, estimate_equity, equity_main]
  have hguard : ¬(c8_state.stage = TERMINAL ∨ c8_state.stage = SHOWDOWN) := by
    simp [c8_state, mk_state]
  have hres : resolve c8_state 0 0 0 = none := by
    simp [resolve, c8_state, mk_state, estimate_equity, equity_main]
  refine ⟨hoa, ?_⟩
  calc simulate_hand 3 (fun n => 0) (fun n => FOLD) 0 c8_state
      = resolve c8_state 0 0 0 := by simp [simulate_hand, sim_loop, hguard, hoa]
    _ = none := hres

/-- Claim C8 (amended): a failure of the decision step is caught at the
loop boundary and aborts only the loop, after which `simulate_hand`
proceeds to hand resolution with the statistics accumulated so far; the
tuple is returned exactly when that resolution itself succeeds (at
`c8_state` it does not, because resolution re-runs the equity
estimate). -/
theorem c8_loop_abort (fuel : ℕ) (uO : ℕ → ℚ) (rO : ℕ → ActionType)
    (draw : ℚ) (s : GameState)
    (hst : ¬(s.stage = TERMINAL ∨ s.stage = SHOWDOWN))
    (hfail : optimal_action s (uO 0) = none) :
    simulate_hand (fuel + 1) uO rO draw s = resolve s 0 0 draw := by
  simp [simulate_hand, sim_loop, hst, hfail]

/-- Witness for C8 at the malformed-river state. -/
theorem c8_loop_abort_witness :
    simulate_hand 3 (fun n => 0) (fun n => FOLD) 0 c8_state =
      resolve c8_state 0 0 0 :=
  c8_loop_abort 2 (fun n => 0) (fun n => FOLD) 0 c8_state (by simp [c8_state, mk_state])
    (by simp [optimal_action, is_bet_in_front, c8_state, mk_state, calculate_ev,
      ev_sum, ev_step, opponent_response, estimate_equity, equity_main])

/-- Facing a bet, the chosen action is RAISE or CALL. -/
lemma bet_response_choice_act (last : HistEntry) (hs u : ℚ) :
    (bet_response_choice last hs u).1 = RAISE ∨
      (bet_response_choice last hs u).1 = CALL := by
  unfold bet_response_choice
  dsimp only
  split_ifs <;> simp

/-- The bluff action is RAISE or BET. -/
lemma get_bluff_action_act (s : GameState) :
    (get_bluff_action s).1 = RAISE ∨ (get_bluff_action s).1 = BET := by
  unfold get_bluff_action
  split_ifs
  · simp
  · cases s.opponent_type <;> simp

/-- Every action returned by `optimal_action` is CHECK, CALL, BET or
RAISE. -/
lemma optimal_action_act_cases (s : GameState) (u : ℚ) (a : ActionType)
    (sz ev : ℚ) (h : optimal_action s u = some ((a, sz), ev)) :
    a = CHECK ∨ a = CALL ∨ a = BET ∨ a = RAISE := by
  unfold optimal_action at h
  dsimp only at h
  split at h
  · split at h
    · exact absurd h (by simp)
    · rename_i last heq
      split at h
      · exact absurd h (by simp)
      · simp only [Option.some.injEq, Prod.mk.injEq] at h
        have hfst : (bet_response_choice last s.hero_stack u).1 = a := by
          rw [h.1]
        rcases bet_response_choice_act last s.hero_stack u with hb | hb <;>
          rw [hfst] at hb
        · exact Or.inr (Or.inr (Or.inr hb))
        · exact Or.inr (Or.inl hb)
  · split at h
    · split at h
      · exact absurd h (by simp)
      · simp only [Option.some.injEq, Prod.mk.injEq] at h
        exact Or.inr (Or.inr (Or.inl h.1.1.symm))
    · split at h
      · split at h
        · exact absurd h (by simp)
        · simp only [Option.some.injEq, Prod.mk.injEq] at h
          rcases get_bluff_action_act s with hb | hb <;> rw [h.1.1] at hb
          · exact Or.inr (Or.inr (Or.inr hb))
          · exact Or.inr (Or.inr (Or.inl hb))
      · split at h
        · exact absurd h (by simp)
        · simp only [Option.some.injEq, Prod.mk.injEq] at h
          exact Or.inl h.1.1.symm

/-- One step of `execute_action` appends hero's entry and the villain
response entry to the history. -/
lemma execute_action_history (s : GameState) (a : ActionType) (b : ℚ)
    (r : ActionType) :
    (execute_action s a b r).history = s.history ++
      [⟨HERO, a, b⟩,
       ⟨VILLAIN, r, villain_response_amount (s.pot + hero_contribution s a b)
         s.villain_stack b r⟩] := rfl

/-- `execute_action` does not touch the stage. -/
lemma execute_action_stage (s : GameState) (a : ActionType) (b : ℚ)
    (r : ActionType) : (execute_action s a b r).stage = s.stage := rfl

/-- `update_stage` does not touch the history. -/
lemma update_stage_history (s : GameState) :
    (update_stage s).history = s.history := by
  unfold update_stage
  split
  · dsimp only
    split_ifs <;> rfl
  · rfl

/-- The advance ladder never produces TERMINAL from a non-TERMINAL
stage. -/
lemma advance_stage_ne_terminal (st : GameStage) (h : st ≠ TERMINAL) :
    advance_stage st ≠ TERMINAL := by
  cases st <;> simp_all [advance_stage]

/-- If no fold sits in the last two history entries and the stage is
not TERMINAL, `update_stage` does not produce TERMINAL. -/
lemma update_stage_not_terminal (s : GameState) (e1 e2 : HistEntry)
    (rest : List HistEntry) (hrev : s.history.reverse = e1 :: e2 :: rest)
    (h1 : e1.act ≠ FOLD) (h2 : e2.act ≠ FOLD) (hs : s.stage ≠ TERMINAL) :
    (update_stage s).stage ≠ TERMINAL := by
  have hadv := advance_stage_ne_terminal s.stage hs
  simp only [update_stage]
  rw [hrev]
  simp only [h1, h2]
  rw [if_neg (by simp [h1, h2])]
  split_ifs <;> simp_all

/-- Last element of a list extended by two entries. -/
lemma getLast?_append_pair (l : List HistEntry) (x y : HistEntry) :
    (l ++ [x, y]).getLast? = some y := by
  have h2 : l ++ [x, y] = (l ++ [x]) ++ [y] := by simp
  rw [h2, List.getLast?_concat]

/-- Loop invariant of `simulate_hand`: starting from a non-TERMINAL
stage, if the decision loop ends in TERMINAL then the last history
entry is a villain FOLD. -/
lemma sim_loop_terminal_inv (uO : ℕ → ℚ) (rO : ℕ → ActionType) :
    ∀ (fuel : ℕ) (s : GameState) (tev : ℚ) (cnt : ℕ), s.stage ≠ TERMINAL →
      (sim_loop uO rO fuel s tev cnt).1.stage = TERMINAL →
      ∃ e, (sim_loop uO rO fuel s tev cnt).1.history.getLast? = some e ∧
        e.actor = VILLAIN ∧ e.act = FOLD := by
  intro fuel
  induction fuel with
  | zero =>
    intro s tev cnt hs hT
    simp only [sim_loop] at hT
    exact absurd hT hs
  | succ f ih =>
    intro s tev cnt hs hT
    by_cases hguard : s.stage = TERMINAL ∨ s.stage = SHOWDOWN
    · rw [show sim_loop uO rO (f + 1) s tev cnt = (s, tev, cnt) from by
        simp [sim_loop, hguard]] at hT
      exact absurd hT hs
    · cases hoa : optimal_action s (uO cnt) with
      | none =>
        rw [show sim_loop uO rO (f + 1) s tev cnt = (s, tev, cnt) from by
          simp [sim_loop, hguard, hoa]] at hT
        exact absurd hT hs
      | some v =>
        obtain ⟨⟨a, bs⟩, ev⟩ := v
        have hact := optimal_action_act_cases s (uO cnt) a bs ev hoa
        have hanf : a ≠ FOLD := by rcases hact with h | h | h | h <;> simp [h]
        set s2 := update_stage (execute_action s a bs (rO cnt)) with hs2
        by_cases hr : rO cnt = FOLD
        · have heq : sim_loop uO rO (f + 1) s tev cnt =
              ({ s2 with stage := TERMINAL }, tev + ev, cnt + 1) := by
            simp [sim_loop, hguard, hoa, hr, hs2]
          rw [heq] at hT ⊢
          refine ⟨⟨VILLAIN, FOLD,
            villain_response_amount (s.pot + hero_contribution s a bs)
              s.villain_stack bs FOLD⟩, ?_, rfl, rfl⟩
          show s2.history.getLast? = _
          rw [hs2, update_stage_history, execute_action_history, hr]
          exact getLast?_append_pair _ _ _
        · by_cases hstack : s2.hero_stack = 0 ∨ s2.villain_stack = 0
          · rw [show sim_loop uO rO (f + 1) s tev cnt =
                ({ s2 with stage := SHOWDOWN }, tev + ev, cnt + 1) from by
              simp [sim_loop, hguard, hoa, hr, hstack, hs2]] at hT
            simp at hT
          · have heq : sim_loop uO rO (f + 1) s tev cnt =
                sim_loop uO rO f s2 (tev + ev) (cnt + 1) := by
              simp [sim_loop, hguard, hoa, hr, hstack, hs2]
            have hrevE : (execute_action s a bs (rO cnt)).history.reverse =
                (⟨VILLAIN, rO cnt,
                  villain_response_amount (s.pot + hero_contribution s a bs)
                    s.villain_stack bs (rO cnt)⟩ : HistEntry) ::
                (⟨HERO, a, bs⟩ : HistEntry) :: s.history.reverse := by
              rw [execute_action_history]
              simp
            have hs2nt : s2.stage ≠ TERMINAL := by
              rw [hs2]
              exact update_stage_not_terminal _ _ _ _ hrevE hr hanf
                (by rw [execute_action_stage]; exact fun hh => hguard (Or.inl hh))
            rw [heq] at hT ⊢
            exact ih s2 (tev + ev) (cnt + 1) hs2nt hT

/-- Claim C10: `optimal_action` never returns FOLD or ALL_IN, so the
hero never folds; consequently a simulated hand that ends in TERMINAL
has a villain FOLD as its last history entry and the resolution awards
the pot to the Hero, never to the Villain. -/
theorem c10_hero_never_folds :
    (∀ (s : GameState) (u : ℚ) (a : ActionType) (sz ev : ℚ),
        optimal_action s u = some ((a, sz), ev) → a ≠ FOLD ∧ a ≠ ALL_IN) ∧
    (∀ (fuel : ℕ) (uO : ℕ → ℚ) (rO : ℕ → ActionType) (draw : ℚ)
        (s : GameState) (res : HandResult) (sFin : GameState),
        s.stage ≠ TERMINAL →
        simulate_hand fuel uO rO draw s = some (res, sFin) →
        sFin.stage = TERMINAL →
        (∃ e, sFin.history.getLast? = some e ∧ e.actor = VILLAIN ∧
          e.act = FOLD) ∧ res.winner = "Hero") := by
  constructor
  · intro s u a sz ev h
    rcases optimal_action_act_cases s u a sz ev h with hc | hc | hc | hc <;>
      rw [hc] <;> exact ⟨by simp, by simp⟩
  · intro fuel uO rO draw s res sFin hs hsim hTfin
    have hsim2 : resolve (sim_loop uO rO fuel s 0 0).1
        (sim_loop uO rO fuel s 0 0).2.1 (sim_loop uO rO fuel s 0 0).2.2 draw =
        some (res, sFin) := hsim
    by_cases hT2 : (sim_loop uO rO fuel s 0 0).1.stage = TERMINAL
    · obtain ⟨e, he, hea, hef⟩ := sim_loop_terminal_inv uO rO fuel s 0 0 hs hT2
      unfold resolve at hsim2
      rw [if_pos hT2, he] at hsim2
      dsimp only at hsim2
      rw [if_pos (show e.actor = VILLAIN ∧ e.act = FOLD from ⟨hea, hef⟩)] at hsim2
      simp only [Option.some.injEq, Prod.mk.injEq] at hsim2
      constructor
      · refine ⟨e, ?_, hea, hef⟩
        rw [← hsim2.2]
        exact he
      · rw [← hsim2.1]
    · unfold resolve at hsim2
      rw [if_neg hT2] at hsim2
      cases hee : estimate_equity (sim_loop uO rO fuel s 0 0).1.hole_cards
          (sim_loop uO rO fuel s 0 0).1.stage with
      | none =>
        rw [hee] at hsim2
        exact absurd hsim2 (by simp)
      | some q =>
        rw [hee] at hsim2
        dsimp only at hsim2
        by_cases hd : draw < q
        · rw [if_pos hd] at hsim2
          simp only [Option.some.injEq, Prod.mk.injEq] at hsim2
          have hstg : sFin.stage = (sim_loop uO rO fuel s 0 0).1.stage := by
            rw [← hsim2.2]
          rw [hstg] at hTfin
          exact absurd hTfin hT2
        · rw [if_neg hd] at hsim2
          simp only [Option.some.injEq, Prod.mk.injEq] at hsim2
          have hstg : sFin.stage = (sim_loop uO rO fuel s 0 0).1.stage := by
            rw [← hsim2.2]
          rw [hstg] at hTfin
          exact absurd hTfin hT2

/-- The hand used to witness C10: TIGHT_PASSIVE opponent, preflop,
stacks of 100. -/
def c10_state : GameState :=
  mk_state TIGHT_PASSIVE PREFLOP (3/2) 100 100 [['9','♠'], ['4','♦']] []

/-- The statistics tuple of the witnessed C10 hand. -/
def c10_res : HandResult := ⟨"Hero", 3/2, -3/40, 1, -3/40⟩

/-- The state of the witnessed C10 hand when its loop ends: villain
folded to the preflop raise, pot not yet awarded. -/
def c10_mid : GameState :=
  { stage := TERMINAL, pot := 9/2, hero_stack := 97, villain_stack := 100,
    hole_cards := [['9','♠'], ['4','♦']],
    history := [⟨HERO, RAISE, 3⟩, ⟨VILLAIN, FOLD, 0⟩],
    decision_tree := [⟨HERO, PREFLOP, RAISE, 3, 3/2, 100⟩,
      ⟨VILLAIN, PREFLOP, FOLD, 0, 9/2, 100⟩],
    initial_stack := 100, opponent_type := TIGHT_PASSIVE }

/-- The final state of the witnessed C10 hand, after the pot award. -/
def c10_fin : GameState := { c10_mid with hero_stack := 203/2 }

/-- Witness for C10: the preflop raise is neither FOLD nor ALL_IN, and
the hand that ends TERMINAL on the villain's fold awards the pot to
the Hero. -/
theorem c10_hero_never_folds_witness :
    ((RAISE : ActionType) ≠ FOLD ∧ (RAISE : ActionType) ≠ ALL_IN) ∧
      ((∃ e, c10_fin.history.getLast? = some e ∧ e.actor = VILLAIN ∧
          e.act = FOLD) ∧ c10_res.winner = "Hero") := by
  have hoa : optimal_action c10_state 0 = some ((RAISE, 3), -3/40) := by
    simp [optimal_action, is_bet_in_front, c10_state, mk_state,
      get_bluff_action, calculate_ev, ev_sum, ev_step, opponent_response]
    norm_num
  have hguard : ¬(c10_state.stage = TERMINAL ∨ c10_state.stage = SHOWDOWN) := by
    simp [c10_state, mk_state]
  have hsim : simulate_hand 2 (fun n => 0) (fun n => FOLD) 0 c10_state =
      some (c10_res, c10_fin) := by
    have hloop : sim_loop (fun n => 0) (fun n => FOLD) 2 c10_state 0 0 =
        (c10_mid, -3/40, 1) := by
      rw [show (2 : ℕ) = 1 + 1 from rfl]
      simp only [sim_loop]
      rw [if_neg hguard, hoa]
      norm_num [execute_action, update_stage, is_bet_in_front, advance_stage,
        hero_contribution, villain_response_amount, villain_contribution,
        c10_state, c10_mid, mk_state, GameState.mk.injEq, min_def]
      simp
    rw [simulate_hand, hloop]
    norm_num [resolve, c10_mid, c10_fin, c10_res, HandResult.mk.injEq,
      GameState.mk.injEq, min_def]
  exact ⟨c10_hero_never_folds.1 c10_state 0 RAISE 3 (-3/40) hoa,
    c10_hero_never_folds.2 2 (fun n => 0) (fun n => FOLD) 0 c10_state c10_res
      c10_fin (by simp [c10_state, mk_state]) hsim rfl⟩
